import Mathlib

/-!
Verification development for the `gitlab-cli` OAuth2 core
(`src/auth.rs`, `src/config.rs`, `src/main.rs`).

The Rust source is shallowly embedded: pure functions become Lean
functions, the in-memory `Config` plus the persisted config file become
an explicit `Store` record threaded through the operations, timestamps
(`chrono::DateTime<Utc>`) become `Int` seconds, and HTTP traffic is an
explicit `HttpResponse` argument.  External crates used by the source
(serde_json values, the urlencoding percent-decoder, the sha2 and base64
primitives) are modelled faithfully below.
-/

namespace GitlabCli

/-- Model of `serde_json::Value`.  Numbers are restricted to integers
(`as_i64` is the only numeric accessor the source uses). -/
inductive Json where
  | null
  | bool (b : Bool)
  | num (n : Int)
  | str (s : String)
  | arr (elems : List Json)
  | obj (fields : List (String × Json))

/-- `serde_json`'s `Value::Index<&str>`: indexing an object looks up the
first binding of the key, anything else (missing key or non-object)
yields `Null`. -/
def Json.index (j : Json) (key : String) : Json :=
  match j with
  | .obj fields =>
    match fields.find? (fun f => f.1 = key) with
    | some f => f.2
    | none => .null
  | _ => .null

/-- `Value::as_str`. -/
def Json.asStr (j : Json) : Option String :=
  match j with
  | .str s => some s
  | _ => none

/-- `Value::as_i64`: integer numbers within the `i64` range. -/
def Json.asI64 (j : Json) : Option Int :=
  match j with
  | .num n => if -(2 ^ 63) ≤ n ∧ n < 2 ^ 63 then some n else none
  | _ => none

/-- `config.rs`: `OAuth2Config`.  `expires_at` is a Unix timestamp in
seconds (the source stores a `DateTime<Utc>`). -/
structure OAuth2Config where
  client_id : String
  access_token : String
  refresh_token : String
  expires_at : Int
deriving DecidableEq, Repr

/-- `OAuth2Config::is_expired`: `Utc::now() >= self.expires_at`, with
the current time passed explicitly. -/
def OAuth2Config.is_expired (o : OAuth2Config) (now : Int) : Bool :=
  decide (o.expires_at ≤ now)

/-- `config.rs`: `Config`. -/
structure Config where
  host : Option String
  token : Option String
  project : Option String
  oauth2 : Option OAuth2Config
deriving DecidableEq, Repr

/-- `Config::host()`: the configured host or `https://gitlab.com`. -/
def Config.hostStr (c : Config) : String :=
  c.host.getD "https://gitlab.com"

/-- `Config::get_access_token`: an unexpired OAuth2 access token wins,
otherwise the static token (which may itself be absent). -/
def Config.get_access_token (c : Config) (now : Int) : Option String :=
  match c.oauth2 with
  | some oauth2 =>
    if oauth2.is_expired now then c.token else some oauth2.access_token
  | none => c.token

/-- The in-memory config together with the persisted config file.
`Config::save` copies the in-memory record to disk wholesale. -/
structure Store where
  mem : Config
  disk : Config
deriving DecidableEq, Repr

/-- `Config::save` on a store: write the in-memory config to disk. -/
def Store.save (st : Store) : Store :=
  { st with disk := st.mem }

/-- `auth.rs`: `parse_token_response`.  The body is `some j` when the
response text is valid JSON parsing to `j`, `none` when it is not valid
JSON (`serde_json::from_str` fails).  `now` stands for `Utc::now()` at
parse time. -/
def parse_token_response (client_id : String) (body : Option Json)
    (now : Int) : Except String OAuth2Config :=
  match body with
  | none => .error "Failed to parse token response"
  | some json =>
    match (json.index "access_token").asStr with
    | none => .error "Missing access_token"
    | some access_token =>
      match (json.index "refresh_token").asStr with
      | none => .error "Missing refresh_token"
      | some refresh_token =>
        let expires_in := ((json.index "expires_in").asI64).getD 7200
        let expires_at := now + expires_in
        .ok { client_id := client_id, access_token := access_token,
              refresh_token := refresh_token, expires_at := expires_at }

/-- The effective `expires_in` a body yields in `parse_token_response`
(7200 when the field is absent or not an `i64`). -/
def effective_expires_in (body : Option Json) : Int :=
  match body with
  | none => 7200
  | some json => ((json.index "expires_in").asI64).getD 7200

/-- An HTTP response from the token endpoint: `success` is
`status.is_success()`, `bodyText` the raw text (used verbatim in error
messages), `bodyJson` the result of JSON-parsing that text. -/
structure HttpResponse where
  success : Bool
  bodyText : String
  bodyJson : Option Json

/-- Helper for `words`: `cur` is the reversed current word. -/
def wordsAux (cur : List Char) : List Char → List (List Char)
  | [] => if cur.isEmpty then [] else [cur.reverse]
  | c :: cs =>
    if c.isWhitespace then
      if cur.isEmpty then wordsAux [] cs else cur.reverse :: wordsAux [] cs
    else wordsAux (c :: cur) cs

/-- Rust `str::split_whitespace`: maximal runs of non-whitespace
characters, empty runs dropped. -/
def words (l : List Char) : List (List Char) :=
  wordsAux [] l

/-- The characters after the first occurrence of `c` (Rust
`str::find` followed by slicing past the match), `none` when `c` does
not occur. -/
def afterFirst (c : Char) : List Char → Option (List Char)
  | [] => none
  | x :: xs => if x = c then some xs else afterFirst c xs

/-- Rust `str::split(sep)`: splits at every separator, keeping empty
pieces (so the result is never empty). -/
def splitOnChar (sep : Char) : List Char → List (List Char)
  | [] => [[]]
  | c :: cs =>
    match splitOnChar sep cs with
    | [] => [[c]]
    | h :: t => if c = sep then [] :: h :: t else (c :: h) :: t

/-- Rust `str::splitn(2, '=')` as used on a query pair: the key before
the first `=` and, when an `=` occurs, the rest as the value. -/
def splitn2Eq : List Char → List Char × Option (List Char)
  | [] => ([], none)
  | c :: cs =>
    if c = '=' then ([], some cs)
    else
      let r := splitn2Eq cs
      (c :: r.1, r.2)

/-- Hex digit value, 0 for non-hex characters. -/
def hexVal (c : Char) : Nat :=
  if '0' ≤ c ∧ c ≤ '9' then c.toNat - '0'.toNat
  else if 'a' ≤ c ∧ c ≤ 'f' then c.toNat - 'a'.toNat + 10
  else if 'A' ≤ c ∧ c ≤ 'F' then c.toNat - 'A'.toNat + 10
  else 0

def isHexDigit (c : Char) : Bool :=
  ('0' ≤ c ∧ c ≤ '9') ∨ ('a' ≤ c ∧ c ≤ 'f') ∨ ('A' ≤ c ∧ c ≤ 'F')

/-- Model of `urlencoding::decode` on ASCII data: `%XX` hex escapes
become the escaped byte, malformed escapes are kept literally.  (The
crate additionally rejects byte sequences that are not valid UTF-8; the
callback values this development evaluates are ASCII, where the decoder
is total.) -/
def urldecodeChars : List Char → List Char
  | [] => []
  | ['%'] => ['%']
  | ['%', a] => ['%', a]
  | '%' :: a :: b :: rest =>
    if isHexDigit a ∧ isHexDigit b then
      Char.ofNat (16 * hexVal a + hexVal b) :: urldecodeChars rest
    else '%' :: urldecodeChars (a :: b :: rest)
  | c :: rest => c :: urldecodeChars rest

/-- The `error_description` lookup inside `extract_code_from_request`:
the first pair of the query whose key is `error_description` and that
has a value, percent-decoded; empty string when none. -/
def findErrorDescription (query : List Char) : List Char :=
  ((splitOnChar '&' query).findSome? (fun p =>
    let kv := splitn2Eq p
    if kv.1 = "error_description".data then
      kv.2.map urldecodeChars
    else none)).getD []

/-- The `for pair in query.split('&')` loop of
`extract_code_from_request`: the first pair with a value whose key is
`code` succeeds with the decoded value, the first pair with a value
whose key is `error` fails with the provider's error and description,
and exhausting the pairs fails. -/
def scanPairs (query : List Char) : List (List Char) → Except String String
  | [] => .error "No authorization code in callback"
  | p :: rest =>
    let kv := splitn2Eq p
    match kv.2 with
    | none => scanPairs query rest
    | some value =>
      if kv.1 = "code".data then .ok (String.mk (urldecodeChars value))
      else if kv.1 = "error".data then
        .error ("Authorization failed: " ++ String.mk value ++ " - " ++
          String.mk (findErrorDescription query))
      else scanPairs query rest

/-- `auth.rs`: `extract_code_from_request`. -/
def extract_code_from_request (request_line : String) :
    Except String String :=
  match words request_line.data with
  | _ :: path :: _ =>
    match afterFirst '?' path with
    | none => .error "No query string in callback"
    | some query => scanPairs query (splitOnChar '&' query)
  | _ => .error "Invalid HTTP request"

/-- Rust `str::trim_end_matches('/')`: drop every trailing slash. -/
def trimEndSlashes (s : String) : String :=
  String.mk ((s.data.reverse.dropWhile (fun c => c = '/')).reverse)

/-- A header value byte accepted by `http::HeaderValue::from_str`:
visible characters, space, and horizontal tab. -/
def isValidHeaderChar (c : Char) : Bool :=
  c.toNat = 9 ∨ (32 ≤ c.toNat ∧ c.toNat < 127)

/-- `api.rs`: the `Client` as far as its construction-time state goes
(the reqwest handle carries the bearer header built from `token`). -/
structure Client where
  base_url : String
  token : String
  project : String
deriving DecidableEq, Repr

/-- `api.rs`: `Client::new`.  Fails when the bearer header value is
invalid; otherwise records `{host}/api/v4` (trailing slashes of the
host removed), the token and the project. -/
def Client.new (host token project : String) : Except String Client :=
  if ("Bearer " ++ token).data.all isValidHeaderChar then
    .ok { base_url := trimEndSlashes host ++ "/api/v4",
          token := token, project := project }
  else .error "Invalid auth token"

/-- `auth.rs`: `refresh_token`.  `transport` is the outcome of the POST
to `{host}/oauth/token` (`.error` = network/`text()` failure).  Returns
the command result together with the store left behind: unchanged on
every failure, and holding (in memory and on disk) the wholesale-new
record exactly on success. -/
def refresh_token (st : Store) (transport : Except String HttpResponse)
    (now : Int) : Except String Unit × Store :=
  match st.mem.oauth2 with
  | none => (.error "No OAuth2 configuration found", st)
  | some oauth2 =>
    match transport with
    | .error e => (.error ("Failed to refresh token: " ++ e), st)
    | .ok resp =>
      if resp.success then
        match parse_token_response oauth2.client_id resp.bodyJson now with
        | .error e => (.error e, st)
        | .ok new_oauth2 =>
          (.ok (), ({ st with mem := { st.mem with oauth2 := some new_oauth2 } }).save)
      else (.error ("Token refresh failed: " ++ resp.bodyText), st)

/-- The expiry-check gate at the top of `main.rs`'s `get_client`: when
an OAuth2 record is present and expired, call `refresh_token` (once);
otherwise do nothing.  The `Nat` counts refresh calls. -/
def refresh_gate (st : Store) (transport : Except String HttpResponse)
    (now : Int) : Except String Unit × Store × Nat :=
  match st.mem.oauth2 with
  | some oauth2 =>
    if oauth2.is_expired now then
      let r := refresh_token st transport now
      (r.1, r.2, 1)
    else (.ok (), st, 0)
  | none => (.ok (), st, 0)

/-- `main.rs`: `get_client`.  Returns the command result, the store
left behind, and how many refresh calls were made (0 or 1). -/
def get_client (st : Store) (transport : Except String HttpResponse)
    (now : Int) (project_override : Option String) :
    Except String Client × Store × Nat :=
  match refresh_gate st transport now with
  | (.error e, st1, n) => (.error e, st1, n)
  | (.ok _, st1, n) =>
    match st1.mem.get_access_token now with
    | none =>
      (.error "No token configured. Run: gitlab auth login --client-id <id>",
       st1, n)
    | some token =>
      match project_override with
      | some project => (Client.new st1.mem.hostStr token project, st1, n)
      | none =>
        match st1.mem.project with
        | some project => (Client.new st1.mem.hostStr token project, st1, n)
        | none =>
          (.error "No project specified. Use --project or run: gitlab config --project <project>",
           st1, n)

/-- `main.rs`: the `Commands::Config` branch.  With no arguments it only
prints; otherwise it updates the supplied fields and saves. -/
def config_command (st : Store) (host token project : Option String) :
    Store :=
  if host.isNone ∧ token.isNone ∧ project.isNone then st
  else
    let c0 := st.mem
    let c1 := match host with
      | some h => { c0 with host := some h }
      | none => c0
    let c2 := match token with
      | some t => { c1 with token := some t }
      | none => c1
    let c3 := match project with
      | some p => { c2 with project := some p }
      | none => c2
    ({ st with mem := c3 }).save

/-! ### SHA-256 and URL-safe base64 (the sha2 / base64 crates) -/

/-- Truncate to a 32-bit word. -/
def w32 (n : Nat) : Nat := n % 4294967296

/-- 32-bit right rotation. -/
def rotr (r x : Nat) : Nat := w32 ((x >>> r) ||| (x <<< (32 - r)))

def shaCh (x y z : Nat) : Nat := (x &&& y) ^^^ ((x ^^^ 4294967295) &&& z)

def shaMaj (x y z : Nat) : Nat := (x &&& y) ^^^ (x &&& z) ^^^ (y &&& z)

def bigSigma0 (x : Nat) : Nat := rotr 2 x ^^^ rotr 13 x ^^^ rotr 22 x

def bigSigma1 (x : Nat) : Nat := rotr 6 x ^^^ rotr 11 x ^^^ rotr 25 x

def smallSigma0 (x : Nat) : Nat := rotr 7 x ^^^ rotr 18 x ^^^ (x >>> 3)

def smallSigma1 (x : Nat) : Nat := rotr 17 x ^^^ rotr 19 x ^^^ (x >>> 10)

/-- The SHA-256 round constants (FIPS 180-4, written in decimal). -/
def shaK : List Nat :=
  [1116352408, 1899447441, 3049323471, 3921009573, 961987163,
   1508970993, 2453635748, 2870763221, 3624381080, 310598401,
   607225278, 1426881987, 1925078388, 2162078206, 2614888103,
   3248222580, 3835390401, 4022224774, 264347078, 604807628,
   770255983, 1249150122, 1555081692, 1996064986, 2554220882,
   2821834349, 2952996808, 3210313671, 3336571891, 3584528711,
   113926993, 338241895, 666307205, 773529912, 1294757372,
   1396182291, 1695183700, 1986661051, 2177026350, 2456956037,
   2730485921, 2820302411, 3259730800, 3345764771, 3516065817,
   3600352804, 4094571909, 275423344, 430227734, 506948616,
   659060556, 883997877, 958139571, 1322822218, 1537002063,
   1747873779, 1955562222, 2024104815, 2227730452, 2361852424,
   2428436474, 2756734187, 3204031479, 3329325298]

/-- The SHA-256 initial hash value (FIPS 180-4, written in decimal). -/
def shaH0 : List Nat :=
  [1779033703, 3144134277, 1013904242, 2773480762,
   1359893119, 2600822924, 528734635, 1541459225]

/-- Extend a 16-word message block by `fuel` further schedule words. -/
def extendW (w : List Nat) : Nat → List Nat
  | 0 => w
  | fuel + 1 =>
    let t := w.length
    let next := w32 (smallSigma1 (w.getD (t - 2) 0) + w.getD (t - 7) 0 +
      smallSigma0 (w.getD (t - 15) 0) + w.getD (t - 16) 0)
    extendW (w ++ [next]) fuel

/-- One SHA-256 compression round on the state `[a,b,c,d,e,f,g,h]`. -/
def shaRound (s : List Nat) (k w : Nat) : List Nat :=
  match s with
  | [a, b, c, d, e, f, g, h] =>
    let t1 := w32 (h + bigSigma1 e + shaCh e f g + k + w)
    let t2 := w32 (bigSigma0 a + shaMaj a b c)
    [w32 (t1 + t2), a, b, c, w32 (d + t1), e, f, g]
  | s => s

/-- Compress one 16-word block into the running hash. -/
def compressBlock (h : List Nat) (block : List Nat) : List Nat :=
  let w := extendW block 48
  let s := (shaK.zip w).foldl (fun s kw => shaRound s kw.1 kw.2) h
  (h.zip s).map (fun p => w32 (p.1 + p.2))

/-- Big-endian 8-byte encoding of `n`. -/
def be64 (n : Nat) : List Nat :=
  [(n >>> 56) % 256, (n >>> 48) % 256, (n >>> 40) % 256, (n >>> 32) % 256,
   (n >>> 24) % 256, (n >>> 16) % 256, (n >>> 8) % 256, n % 256]

/-- SHA-256 padding: `0x80`, zeros to 56 mod 64, then the bit length. -/
def padMessage (msg : List Nat) : List Nat :=
  let zeros := (64 - (msg.length + 9) % 64) % 64
  msg ++ 0x80 :: List.replicate zeros 0 ++ be64 (msg.length * 8)

/-- Split a byte list into 64-byte chunks; `fuel` bounds the number of
chunks (each step consumes at least one byte). -/
def chunks64Fuel : Nat → List Nat → List (List Nat)
  | 0, _ => []
  | _, [] => []
  | fuel + 1, x :: xs =>
    ((x :: xs).take 64) :: chunks64Fuel fuel ((x :: xs).drop 64)

/-- Split a byte list into 64-byte chunks. -/
def chunks64 (l : List Nat) : List (List Nat) :=
  chunks64Fuel l.length l

/-- Pack bytes into big-endian 32-bit words. -/
def bytesToWords : List Nat → List Nat
  | b0 :: b1 :: b2 :: b3 :: rest =>
    w32 (b0 <<< 24 + b1 <<< 16 + b2 <<< 8 + b3) :: bytesToWords rest
  | _ => []

/-- Unpack 32-bit words into big-endian bytes. -/
def wordsToBytes (ws : List Nat) : List Nat :=
  ws.flatMap (fun w =>
    [(w >>> 24) % 256, (w >>> 16) % 256, (w >>> 8) % 256, w % 256])

/-- SHA-256 of a byte list (the sha2 crate's `Sha256`). -/
def sha256 (msg : List Nat) : List Nat :=
  wordsToBytes ((chunks64 (padMessage msg)).foldl
    (fun h b => compressBlock h (bytesToWords b)) shaH0)

/-- UTF-8 encoding of one character (`str::as_bytes`). -/
def utf8Bytes (c : Char) : List Nat :=
  let n := c.toNat
  if n < 0x80 then [n]
  else if n < 0x800 then
    [0xC0 ||| (n >>> 6), 0x80 ||| (n &&& 0x3F)]
  else if n < 0x10000 then
    [0xE0 ||| (n >>> 12), 0x80 ||| ((n >>> 6) &&& 0x3F), 0x80 ||| (n &&& 0x3F)]
  else
    [0xF0 ||| (n >>> 18), 0x80 ||| ((n >>> 12) &&& 0x3F),
     0x80 ||| ((n >>> 6) &&& 0x3F), 0x80 ||| (n &&& 0x3F)]

/-- The UTF-8 bytes of a string (`str::as_bytes`). -/
def strBytes (s : String) : List Nat :=
  s.data.flatMap utf8Bytes

/-- The URL-safe base64 alphabet. -/
def b64Alphabet : List Char :=
  "ABCDEFGHIJKLMNOPQRSTUVWXYZabcdefghijklmnopqrstuvwxyz0123456789-_".data

def b64Char (n : Nat) : Char := b64Alphabet.getD n 'A'

/-- URL-safe base64 without padding (`base64`'s `URL_SAFE_NO_PAD`),
as characters. -/
def b64Chars : List Nat → List Char
  | [] => []
  | [b0] => [b64Char (b0 >>> 2), b64Char ((b0 &&& 3) <<< 4)]
  | [b0, b1] =>
    [b64Char (b0 >>> 2), b64Char (((b0 &&& 3) <<< 4) ||| (b1 >>> 4)),
     b64Char ((b1 &&& 15) <<< 2)]
  | b0 :: b1 :: b2 :: rest =>
    b64Char (b0 >>> 2) :: b64Char (((b0 &&& 3) <<< 4) ||| (b1 >>> 4)) ::
    b64Char (((b1 &&& 15) <<< 2) ||| (b2 >>> 6)) :: b64Char (b2 &&& 63) ::
    b64Chars rest

/-- `URL_SAFE_NO_PAD.encode`. -/
def b64UrlNoPad (bytes : List Nat) : String :=
  String.mk (b64Chars bytes)

/-! ### The auth flow (`auth.rs` / `main.rs`) -/

/-- `auth.rs`: `DEFAULT_CLIENT_ID`. -/
def default_client_id : String :=
  "41d48f9422ebd655dd9cf2947d6979681dfaddc6d0c56f7628f6ada59559af1e"

/-- `auth.rs`: `AuthFlow`. -/
structure AuthFlow where
  host : String
  client_id : String
  code_verifier : String
deriving DecidableEq, Repr

/-- `AuthFlow::new`; the randomly generated verifier is passed in
explicitly. -/
def AuthFlow.new (host client_id code_verifier : String) : AuthFlow :=
  { host := trimEndSlashes host, client_id := client_id,
    code_verifier := code_verifier }

/-- `AuthFlow::code_challenge`: URL-safe unpadded base64 of the SHA-256
digest of the verifier's bytes. -/
def AuthFlow.code_challenge (f : AuthFlow) : String :=
  b64UrlNoPad (sha256 (strBytes f.code_verifier))

/-- Modelled from the spec: `challenge_for(verifier)` — "SHA-256 digest
of the verifier's raw bytes (ASCII), URL-safe-base64 encoded without
padding". -/
def challenge_for (verifier : String) : String :=
  b64UrlNoPad (sha256 (strBytes verifier))

/-- `AuthFlow::exchange_code`: `transport` is the outcome of the POST of
the code and verifier to the token endpoint. -/
def AuthFlow.exchange_code (f : AuthFlow) (_code : String)
    (transport : Except String HttpResponse) (now : Int) :
    Except String OAuth2Config :=
  match transport with
  | .error e => .error ("Failed to exchange authorization code: " ++ e)
  | .ok resp =>
    if resp.success then parse_token_response f.client_id resp.bodyJson now
    else .error ("Token exchange failed: " ++ resp.bodyText)

/-- `main.rs`: the `AuthCommands::Login` branch.  `request_line` is the
single HTTP request line the callback listener reads, `verifier` the
generated PKCE verifier, `transport` the token-endpoint exchange. -/
def auth_login (st : Store) (client_id host : Option String)
    (verifier : String) (request_line : String)
    (transport : Except String HttpResponse) (now : Int) :
    Except String Unit × Store :=
  let auth_host := host.getD st.mem.hostStr
  let cid := client_id.getD default_client_id
  let flow := AuthFlow.new auth_host cid verifier
  match extract_code_from_request request_line with
  | .error e => (.error e, st)
  | .ok code =>
    match flow.exchange_code code transport now with
    | .error e => (.error e, st)
    | .ok oauth2_config =>
      let c1 := { st.mem with oauth2 := some oauth2_config, token := none }
      let c2 := if host.isSome then { c1 with host := host } else c1
      (.ok (), ({ st with mem := c2 }).save)

/-! ### Sanity vectors for the crypto embedding -/

/-- NIST test vector: SHA-256 of `"abc"` (digest bytes in decimal). -/
theorem sha256_abc_vector :
    sha256 (strBytes "abc") =
      [186, 120, 22, 191, 143, 1, 207, 234,
       65, 65, 64, 222, 93, 174, 34, 35,
       176, 3, 97, 163, 150, 23, 122, 156,
       180, 16, 255, 97, 242, 0, 21, 173] := by decide

/-- RFC 7636 appendix B vector: the S256 challenge of the example
verifier. -/
theorem pkce_rfc7636_vector :
    challenge_for "dBjftJeZ4CVP-mB92K27uhbUJU1p1r_wW1gFWFOEjXk" =
      "E9Melhoa2OwvFrEMTJguCHaoeK1t8URWbuGJSstw-cM" := by decide

/-- Claim C5: the callback request line with `code=abc123` extracts the
code `abc123`, and the callback whose query is
`error=access_denied&error_description=User%20cancelled` fails with a
message carrying the error code and the percent-decoded description. -/
theorem extract_code_examples :
    extract_code_from_request "GET /auth/redirect?code=abc123 HTTP/1.1" =
      .ok "abc123" ∧
    extract_code_from_request
        "GET /auth/redirect?error=access_denied&error_description=User%20cancelled HTTP/1.1" =
      .error "Authorization failed: access_denied - User cancelled" :=
  ⟨rfl, rfl⟩

/-- Claim C9: the code challenge is a pure deterministic function of
the verifier: it equals the spec's `challenge_for` (URL-safe unpadded
base64 of the SHA-256 of the verifier's bytes), and any two flows with
the same verifier produce identical challenges. -/
theorem code_challenge_deterministic (f g : AuthFlow)
    (h : f.code_verifier = g.code_verifier) :
    f.code_challenge = challenge_for f.code_verifier ∧
    f.code_challenge = g.code_challenge := by
  constructor
  · rfl
  · simp [AuthFlow.code_challenge, h]

/-- Witness for C9: two flows differing in host and client id but
sharing a verifier, with the challenge value evaluated. -/
theorem code_challenge_deterministic_witness :
    (AuthFlow.new "https://gitlab.com" "id1" "test-verifier").code_challenge =
      challenge_for
        (AuthFlow.new "https://gitlab.com" "id1" "test-verifier").code_verifier ∧
    (AuthFlow.new "https://gitlab.com" "id1" "test-verifier").code_challenge =
      (AuthFlow.new "https://example.org/" "id2" "test-verifier").code_challenge ∧
    (AuthFlow.new "https://gitlab.com" "id1" "test-verifier").code_challenge =
      "JBbiqONGWPaAmwXk_8bT6UnlPfrn65D32eZlJS-zGG0" :=
  ⟨(code_challenge_deterministic
      (AuthFlow.new "https://gitlab.com" "id1" "test-verifier")
      (AuthFlow.new "https://example.org/" "id2" "test-verifier") rfl).1,
   (code_challenge_deterministic
      (AuthFlow.new "https://gitlab.com" "id1" "test-verifier")
      (AuthFlow.new "https://example.org/" "id2" "test-verifier") rfl).2,
   by decide⟩

/-- Claim C1: parsing a body with string `access_token` and
`refresh_token` fields at time `now` yields a record with exactly those
tokens and `expires_at = now + expires_in` (the body's integer
`expires_in`; 7200 when the field is absent), and both the
authorization-code exchange and the refresh path go through this one
parser. -/
theorem parse_token_response_success (cid a r : String) (j : Json)
    (now : Int)
    (ha : (j.index "access_token").asStr = some a)
    (hr : (j.index "refresh_token").asStr = some r) :
    parse_token_response cid (some j) now =
      .ok { client_id := cid, access_token := a, refresh_token := r,
            expires_at := now + effective_expires_in (some j) } ∧
    (j.index "expires_in" = Json.null →
      effective_expires_in (some j) = 7200) ∧
    (∀ n : Int, j.index "expires_in" = Json.num n →
      -(2 ^ 63) ≤ n → n < 2 ^ 63 → effective_expires_in (some j) = n) ∧
    (∀ (f : AuthFlow) (code t : String),
      f.exchange_code code (.ok ⟨true, t, some j⟩) now =
        parse_token_response f.client_id (some j) now) ∧
    (∀ (st : Store) (o : OAuth2Config) (t : String),
      st.mem.oauth2 = some o →
      refresh_token st (.ok ⟨true, t, some j⟩) now =
        (.ok (), ({ st with mem := { st.mem with oauth2 := some (
          { client_id := o.client_id, access_token := a, refresh_token := r,
            expires_at := now + effective_expires_in (some j) }) } }).save)) := by
  have hparse : ∀ cid2 : String,
      parse_token_response cid2 (some j) now =
        .ok { client_id := cid2, access_token := a, refresh_token := r,
              expires_at := now + effective_expires_in (some j) } := by
    intro cid2
    simp [parse_token_response, ha, hr, effective_expires_in]
  refine ⟨hparse cid, ?_, ?_, ?_, ?_⟩
  · intro hnull
    simp [effective_expires_in, hnull, Json.asI64]
  · intro n hnum h1 h2
    simp only [effective_expires_in, hnum, Json.asI64]
    rw [if_pos (by constructor <;> [exact le_trans (by norm_num) h1;
      exact lt_of_lt_of_le h2 (by norm_num)])]
    rfl
  · intro f code t
    simp [AuthFlow.exchange_code]
  · intro st o t hso
    simp [refresh_token, hso, hparse o.client_id]

/-- Witness for C1: a concrete body with `expires_in = 3600` parsed at
`now = 5`. -/
theorem parse_token_response_success_witness :
    parse_token_response "cid"
        (some (Json.obj [("access_token", Json.str "A"),
                         ("refresh_token", Json.str "R"),
                         ("expires_in", Json.num 3600)])) 5 =
      .ok { client_id := "cid", access_token := "A", refresh_token := "R",
            expires_at := 3605 } := by
  have h := (parse_token_response_success "cid" "A" "R"
    (Json.obj [("access_token", Json.str "A"),
               ("refresh_token", Json.str "R"),
               ("expires_in", Json.num 3600)]) 5 rfl rfl).1
  simpa [effective_expires_in, Json.index, Json.asI64] using h

/-- Claim C7: a body whose `access_token` (or `refresh_token`) is
missing or not a string fails to parse with an error naming the missing
field, and a refresh hitting such a body leaves the store unchanged. -/
theorem parse_token_response_missing (cid : String) (j : Json)
    (now : Int) :
    ((j.index "access_token").asStr = none →
      parse_token_response cid (some j) now =
        .error "Missing access_token") ∧
    (∀ a, (j.index "access_token").asStr = some a →
      (j.index "refresh_token").asStr = none →
      parse_token_response cid (some j) now =
        .error "Missing refresh_token") ∧
    (∀ (st : Store) (t : String),
      ((j.index "access_token").asStr = none ∨
       (j.index "refresh_token").asStr = none) →
      (refresh_token st (.ok ⟨true, t, some j⟩) now).2 = st) := by
  refine ⟨?_, ?_, ?_⟩
  · intro h
    simp [parse_token_response, h]
  · intro a ha hr
    simp [parse_token_response, ha, hr]
  · intro st t h
    cases hso : st.mem.oauth2 with
    | none => simp [refresh_token, hso]
    | some o =>
      rcases h with h | h
      · simp [refresh_token, hso, parse_token_response, h]
      · cases hacc : (j.index "access_token").asStr with
        | none => simp [refresh_token, hso, parse_token_response, hacc]
        | some a =>
          simp [refresh_token, hso, parse_token_response, hacc, h]

/-- Witness for C7: bodies missing one of the required fields, and a
refresh against such a body leaving a concrete store unchanged. -/
theorem parse_token_response_missing_witness :
    parse_token_response "cid"
        (some (Json.obj [("refresh_token", Json.str "R")])) 0 =
      .error "Missing access_token" ∧
    parse_token_response "cid"
        (some (Json.obj [("access_token", Json.str "A"),
                         ("refresh_token", Json.num 3)])) 0 =
      .error "Missing refresh_token" ∧
    (refresh_token
        ⟨⟨none, none, none, some ⟨"cid", "A0", "R0", 10⟩⟩,
         ⟨none, none, none, some ⟨"cid", "A0", "R0", 10⟩⟩⟩
        (.ok ⟨true, "", some (Json.obj [("refresh_token", Json.str "R")])⟩)
        0).2 =
      ⟨⟨none, none, none, some ⟨"cid", "A0", "R0", 10⟩⟩,
       ⟨none, none, none, some ⟨"cid", "A0", "R0", 10⟩⟩⟩ :=
  ⟨(parse_token_response_missing "cid"
      (Json.obj [("refresh_token", Json.str "R")]) 0).1 rfl,
   (parse_token_response_missing "cid"
      (Json.obj [("access_token", Json.str "A"),
                 ("refresh_token", Json.num 3)]) 0).2.1 "A" rfl rfl,
   (parse_token_response_missing "cid"
      (Json.obj [("refresh_token", Json.str "R")]) 0).2.2
     ⟨⟨none, none, none, some ⟨"cid", "A0", "R0", 10⟩⟩,
      ⟨none, none, none, some ⟨"cid", "A0", "R0", 10⟩⟩⟩ ""
     (Or.inl rfl)⟩

/-- Everything `get_client` does after the expiry gate leaves the store
and the refresh count of the gate untouched. -/
theorem get_client_snd (st : Store) (tr : Except String HttpResponse)
    (now : Int) (po : Option String) :
    (get_client st tr now po).2 = (refresh_gate st tr now).2 := by
  rcases hg : refresh_gate st tr now with ⟨res, st1, n⟩
  cases res with
  | error e => simp [get_client, hg]
  | ok u =>
    cases u
    simp only [get_client, hg]
    cases hat : st1.mem.get_access_token now with
    | none => rfl
    | some token =>
      cases po with
      | some p => rfl
      | none =>
        cases hp : st1.mem.project with
        | some p => rfl
        | none => rfl

/-- A successful parse fixes the record's client id and expiry. -/
theorem parse_ok_fields (cid : String) (body : Option Json) (now : Int)
    (rec : OAuth2Config)
    (h : parse_token_response cid body now = .ok rec) :
    rec.client_id = cid ∧
    rec.expires_at = now + effective_expires_in body := by
  cases body with
  | none => simp [parse_token_response] at h
  | some j =>
    cases ha : (j.index "access_token").asStr with
    | none => simp [parse_token_response, ha] at h
    | some a =>
      cases hr : (j.index "refresh_token").asStr with
      | none => simp [parse_token_response, ha, hr] at h
      | some r =>
        simp only [parse_token_response, ha, hr, Except.ok.injEq] at h
        rw [← h]
        exact ⟨rfl, by simp [effective_expires_in]⟩

/-- Claim C4: a failing refresh (no record, transport error, bad
status, or unparsable body) leaves the store — in memory and on disk —
unchanged; a successful refresh replaces the record wholesale and saves
immediately. -/
theorem refresh_token_atomic (st : Store)
    (tr : Except String HttpResponse) (now : Int) :
    (∀ e, (refresh_token st tr now).1 = .error e →
      (refresh_token st tr now).2 = st) ∧
    ((refresh_token st tr now).1 = .ok () →
      ∃ o resp rec, st.mem.oauth2 = some o ∧ tr = .ok resp ∧
        resp.success = true ∧
        parse_token_response o.client_id resp.bodyJson now = .ok rec ∧
        (refresh_token st tr now).2.mem =
          { st.mem with oauth2 := some rec } ∧
        (refresh_token st tr now).2.disk =
          (refresh_token st tr now).2.mem) := by
  cases hso : st.mem.oauth2 with
  | none => simp [refresh_token, hso]
  | some o =>
    cases tr with
    | error e => simp [refresh_token, hso]
    | ok resp =>
      cases hs : resp.success with
      | false => simp [refresh_token, hso, hs]
      | true =>
        cases hp : parse_token_response o.client_id resp.bodyJson now with
        | error e => simp [refresh_token, hso, hs, hp]
        | ok rec =>
          constructor
          · intro e he
            simp [refresh_token, hso, hs, hp] at he
          · intro _
            exact ⟨o, resp, rec, rfl, rfl, hs, hp,
              by simp [refresh_token, hso, hs, hp, Store.save],
              by simp [refresh_token, hso, hs, hp, Store.save]⟩

/-- Witness for C4: a transport failure leaves a concrete store
unchanged, and a successful refresh installs the whole new record in
memory and on disk. -/
theorem refresh_token_atomic_witness :
    (refresh_token
        ⟨⟨none, none, none, some ⟨"cid", "A0", "R0", 10⟩⟩,
         ⟨none, some "old-disk", none, some ⟨"cid", "A0", "R0", 10⟩⟩⟩
        (.error "connection refused") 50).2 =
      ⟨⟨none, none, none, some ⟨"cid", "A0", "R0", 10⟩⟩,
       ⟨none, some "old-disk", none, some ⟨"cid", "A0", "R0", 10⟩⟩⟩ ∧
    (∃ o resp rec,
      (⟨⟨none, none, none, some ⟨"cid", "A0", "R0", 10⟩⟩,
        ⟨none, none, none, some ⟨"cid", "A0", "R0", 10⟩⟩⟩ :
          Store).mem.oauth2 = some o ∧
      (.ok ⟨true, "", some (Json.obj [("access_token", Json.str "A1"),
          ("refresh_token", Json.str "R1"),
          ("expires_in", Json.num 3600)])⟩ :
        Except String HttpResponse) = .ok resp ∧
      resp.success = true ∧
      parse_token_response o.client_id resp.bodyJson 50 = .ok rec ∧
      (refresh_token
        ⟨⟨none, none, none, some ⟨"cid", "A0", "R0", 10⟩⟩,
         ⟨none, none, none, some ⟨"cid", "A0", "R0", 10⟩⟩⟩
        (.ok ⟨true, "", some (Json.obj [("access_token", Json.str "A1"),
            ("refresh_token", Json.str "R1"),
            ("expires_in", Json.num 3600)])⟩) 50).2.mem =
        { (⟨⟨none, none, none, some ⟨"cid", "A0", "R0", 10⟩⟩,
           ⟨none, none, none, some ⟨"cid", "A0", "R0", 10⟩⟩⟩ :
            Store).mem with oauth2 := some rec } ∧
      (refresh_token
        ⟨⟨none, none, none, some ⟨"cid", "A0", "R0", 10⟩⟩,
         ⟨none, none, none, some ⟨"cid", "A0", "R0", 10⟩⟩⟩
        (.ok ⟨true, "", some (Json.obj [("access_token", Json.str "A1"),
            ("refresh_token", Json.str "R1"),
            ("expires_in", Json.num 3600)])⟩) 50).2.disk =
      (refresh_token
        ⟨⟨none, none, none, some ⟨"cid", "A0", "R0", 10⟩⟩,
         ⟨none, none, none, some ⟨"cid", "A0", "R0", 10⟩⟩⟩
        (.ok ⟨true, "", some (Json.obj [("access_token", Json.str "A1"),
            ("refresh_token", Json.str "R1"),
            ("expires_in", Json.num 3600)])⟩) 50).2.mem) :=
  ⟨(refresh_token_atomic
      ⟨⟨none, none, none, some ⟨"cid", "A0", "R0", 10⟩⟩,
       ⟨none, some "old-disk", none, some ⟨"cid", "A0", "R0", 10⟩⟩⟩
      (.error "connection refused") 50).1 _ rfl,
   (refresh_token_atomic
      ⟨⟨none, none, none, some ⟨"cid", "A0", "R0", 10⟩⟩,
       ⟨none, none, none, some ⟨"cid", "A0", "R0", 10⟩⟩⟩
      (.ok ⟨true, "", some (Json.obj [("access_token", Json.str "A1"),
          ("refresh_token", Json.str "R1"),
          ("expires_in", Json.num 3600)])⟩) 50).2 rfl⟩

/-- Claim C3: resolving the bearer token prefers an unexpired OAuth2
access token, falls back to the static token otherwise, and with
neither credential `get_client` fails with the no-token error without
any refresh call. -/
theorem get_access_token_priority (c : Config) (now : Int) :
    (∀ o, c.oauth2 = some o → o.is_expired now = false →
      c.get_access_token now = some o.access_token) ∧
    (∀ o, c.oauth2 = some o → o.is_expired now = true →
      c.get_access_token now = c.token) ∧
    (c.oauth2 = none → c.get_access_token now = c.token) ∧
    (c.oauth2 = none → c.token = none →
      ∀ (disk : Config) (tr : Except String HttpResponse)
        (po : Option String),
        (get_client ⟨c, disk⟩ tr now po).1 =
          .error "No token configured. Run: gitlab auth login --client-id <id>" ∧
        (get_client ⟨c, disk⟩ tr now po).2.2 = 0) := by
  refine ⟨?_, ?_, ?_, ?_⟩
  · intro o ho hexp
    simp [Config.get_access_token, ho, hexp]
  · intro o ho hexp
    simp [Config.get_access_token, ho, hexp]
  · intro ho
    simp [Config.get_access_token, ho]
  · intro ho ht disk tr po
    constructor
    · simp [get_client, refresh_gate, ho, Config.get_access_token, ht]
    · have h2 := get_client_snd ⟨c, disk⟩ tr now po
      rw [Prod.ext_iff] at h2
      rw [h2.2]
      simp [refresh_gate, ho]

/-- Witness for C3: the OAuth2 token wins while unexpired, the static
token takes over at expiry, and an empty config fails with the
no-token error and zero refresh calls. -/
theorem get_access_token_priority_witness :
    (⟨none, some "stok", none, some ⟨"cid", "A", "R", 100⟩⟩ :
        Config).get_access_token 50 = some "A" ∧
    (⟨none, some "stok", none, some ⟨"cid", "A", "R", 100⟩⟩ :
        Config).get_access_token 100 = some "stok" ∧
    (⟨none, some "stok", none, none⟩ : Config).get_access_token 7 =
      some "stok" ∧
    (get_client ⟨⟨none, none, none, none⟩, ⟨none, none, none, none⟩⟩
        (.error "net") 7 none).1 =
      .error "No token configured. Run: gitlab auth login --client-id <id>" ∧
    (get_client ⟨⟨none, none, none, none⟩, ⟨none, none, none, none⟩⟩
        (.error "net") 7 none).2.2 = 0 :=
  ⟨(get_access_token_priority
      ⟨none, some "stok", none, some ⟨"cid", "A", "R", 100⟩⟩ 50).1
      ⟨"cid", "A", "R", 100⟩ rfl (by decide),
   ((get_access_token_priority
      ⟨none, some "stok", none, some ⟨"cid", "A", "R", 100⟩⟩ 100).2.1
      ⟨"cid", "A", "R", 100⟩ rfl (by decide)),
   (get_access_token_priority ⟨none, some "stok", none, none⟩ 7).2.2.1 rfl,
   ((get_access_token_priority ⟨none, none, none, none⟩ 7).2.2.2 rfl rfl
      ⟨none, none, none, none⟩ (.error "net") none).1,
   ((get_access_token_priority ⟨none, none, none, none⟩ 7).2.2.2 rfl rfl
      ⟨none, none, none, none⟩ (.error "net") none).2⟩

/-- Counterexample to C2 as stated: with an expired record, a refresh
that succeeds with `expires_in = 0` stores `expires_at = now`, which is
already expired — not "a new future value". -/
theorem get_client_refresh_not_future_counterexample :
    (get_client
        ⟨⟨none, none, some "p", some ⟨"cid", "A0", "R0", 0⟩⟩,
         ⟨none, none, some "p", some ⟨"cid", "A0", "R0", 0⟩⟩⟩
        (.ok ⟨true, "", some (Json.obj [("access_token", Json.str "A1"),
            ("refresh_token", Json.str "R1"),
            ("expires_in", Json.num 0)])⟩) 100 none).2.2 = 1 ∧
    (get_client
        ⟨⟨none, none, some "p", some ⟨"cid", "A0", "R0", 0⟩⟩,
         ⟨none, none, some "p", some ⟨"cid", "A0", "R0", 0⟩⟩⟩
        (.ok ⟨true, "", some (Json.obj [("access_token", Json.str "A1"),
            ("refresh_token", Json.str "R1"),
            ("expires_in", Json.num 0)])⟩) 100 none).2.1.mem.oauth2 =
      some ⟨"cid", "A1", "R1", 100⟩ ∧
    (OAuth2Config.is_expired ⟨"cid", "A1", "R1", 100⟩ 100 = true ∧
      ¬ (100 : Int) < (100 : Int)) := by
  refine ⟨by decide, by decide, by decide, by decide⟩

/-- Claim C2 (amended): with an OAuth2 record that is expired the gate
makes exactly one refresh call, and a successful refresh stores a
record with `expires_at = now + expires_in`, a future value whenever
the response's effective `expires_in` is positive; with an unexpired
record, or without a record, it makes zero refresh calls and leaves the
store untouched. -/
theorem get_client_refresh_gate_props (st : Store)
    (tr : Except String HttpResponse) (now : Int) (po : Option String) :
    (st.mem.oauth2 = none →
      (get_client st tr now po).2.2 = 0 ∧
      (get_client st tr now po).2.1 = st) ∧
    (∀ o, st.mem.oauth2 = some o → o.is_expired now = false →
      (get_client st tr now po).2.2 = 0 ∧
      (get_client st tr now po).2.1 = st) ∧
    (∀ o, st.mem.oauth2 = some o → o.is_expired now = true →
      (get_client st tr now po).2.2 = 1 ∧
      (get_client st tr now po).2.1 = (refresh_token st tr now).2 ∧
      (∀ resp rec, tr = .ok resp → resp.success = true →
        parse_token_response o.client_id resp.bodyJson now = .ok rec →
        (get_client st tr now po).2.1.mem.oauth2 = some rec ∧
        (get_client st tr now po).2.1.disk =
          (get_client st tr now po).2.1.mem ∧
        rec.expires_at = now + effective_expires_in resp.bodyJson ∧
        (0 < effective_expires_in resp.bodyJson →
          now < rec.expires_at))) := by
  have hsnd := get_client_snd st tr now po
  rw [Prod.ext_iff] at hsnd
  refine ⟨?_, ?_, ?_⟩
  · intro ho
    rw [hsnd.1, hsnd.2]
    simp [refresh_gate, ho]
  · intro o ho hexp
    rw [hsnd.1, hsnd.2]
    simp [refresh_gate, ho, hexp]
  · intro o ho hexp
    have hst1 : (get_client st tr now po).2.1 = (refresh_token st tr now).2 := by
      rw [hsnd.1]
      simp [refresh_gate, ho, hexp]
    have hn : (get_client st tr now po).2.2 = 1 := by
      rw [hsnd.2]
      simp [refresh_gate, ho, hexp]
    refine ⟨hn, hst1, ?_⟩
    intro resp rec htr hs hp
    subst htr
    have hexpiry := parse_ok_fields o.client_id resp.bodyJson now rec hp
    refine ⟨?_, ?_, hexpiry.2, ?_⟩
    · rw [hst1]
      simp [refresh_token, ho, hs, hp, Store.save]
    · rw [hst1]
      simp [refresh_token, ho, hs, hp, Store.save]
    · intro hpos
      rw [hexpiry.2]
      omega

/-- Witness for C2 (amended): an expired record plus a successful
refresh with `expires_in = 3600` gives one refresh call and a future
expiry; an unexpired record gives zero refresh calls. -/
theorem get_client_refresh_gate_props_witness :
    (get_client
        ⟨⟨none, none, some "p", some ⟨"cid", "A0", "R0", 0⟩⟩,
         ⟨none, none, some "p", some ⟨"cid", "A0", "R0", 0⟩⟩⟩
        (.ok ⟨true, "", some (Json.obj [("access_token", Json.str "A1"),
            ("refresh_token", Json.str "R1"),
            ("expires_in", Json.num 3600)])⟩) 100 none).2.2 = 1 ∧
    (get_client
        ⟨⟨none, none, some "p", some ⟨"cid", "A0", "R0", 0⟩⟩,
         ⟨none, none, some "p", some ⟨"cid", "A0", "R0", 0⟩⟩⟩
        (.ok ⟨true, "", some (Json.obj [("access_token", Json.str "A1"),
            ("refresh_token", Json.str "R1"),
            ("expires_in", Json.num 3600)])⟩) 100 none).2.1.mem.oauth2 =
      some ⟨"cid", "A1", "R1", 3700⟩ ∧
    (100 : Int) < 3700 ∧
    (get_client
        ⟨⟨none, none, some "p", some ⟨"cid", "A0", "R0", 500⟩⟩,
         ⟨none, none, some "p", some ⟨"cid", "A0", "R0", 500⟩⟩⟩
        (.error "net") 100 none).2.2 = 0 := by
  have h1 := ((get_client_refresh_gate_props
    ⟨⟨none, none, some "p", some ⟨"cid", "A0", "R0", 0⟩⟩,
     ⟨none, none, some "p", some ⟨"cid", "A0", "R0", 0⟩⟩⟩
    (.ok ⟨true, "", some (Json.obj [("access_token", Json.str "A1"),
        ("refresh_token", Json.str "R1"),
        ("expires_in", Json.num 3600)])⟩) 100 none).2.2
    ⟨"cid", "A0", "R0", 0⟩ rfl (by decide))
  have h2 := h1.2.2 ⟨true, "", some (Json.obj [("access_token", Json.str "A1"),
      ("refresh_token", Json.str "R1"),
      ("expires_in", Json.num 3600)])⟩
    ⟨"cid", "A1", "R1", 3700⟩ rfl rfl rfl
  have h3 := ((get_client_refresh_gate_props
    ⟨⟨none, none, some "p", some ⟨"cid", "A0", "R0", 500⟩⟩,
     ⟨none, none, some "p", some ⟨"cid", "A0", "R0", 500⟩⟩⟩
    (.error "net") 100 none).2.1 ⟨"cid", "A0", "R0", 500⟩ rfl (by decide)).1
  exact ⟨h1.1, h2.1, h2.2.2.2 (by decide), h3⟩

/-- The scan loop fails when no pair carries a `code` or `error` key. -/
theorem scanPairs_no_code_no_error (query : List Char) :
    ∀ pairs : List (List Char),
      (∀ p ∈ pairs, (splitn2Eq p).1 ≠ "code".data ∧
        (splitn2Eq p).1 ≠ "error".data) →
      scanPairs query pairs = .error "No authorization code in callback" := by
  intro pairs
  induction pairs with
  | nil => intro _; rfl
  | cons p rest ih =>
    intro h
    have hp := h p (List.mem_cons_self p rest)
    have hrest := fun q hq => h q (List.mem_cons_of_mem p hq)
    have hp1 : ¬ (splitn2Eq p).1 = ['c', 'o', 'd', 'e'] := hp.1
    have hp2 : ¬ (splitn2Eq p).1 = ['e', 'r', 'r', 'o', 'r'] := hp.2
    simp only [scanPairs]
    cases hv : (splitn2Eq p).2 with
    | none => exact ih hrest
    | some v =>
      simp only [hp1, hp2, if_false]
      exact ih hrest

/-- Claim C6: callback parsing never silently succeeds with an empty
code: a request line with fewer than two whitespace-separated tokens is
a fatal parse error, a path with no `?` is a fatal parse error, and a
query with neither a `code` nor an `error` parameter is an error rather
than an empty-string success. -/
theorem extract_code_error_cases :
    (∀ s : String, (words s.data).length < 2 →
      extract_code_from_request s = .error "Invalid HTTP request") ∧
    (∀ (s : String) (t path : List Char) (rest : List (List Char)),
      words s.data = t :: path :: rest →
      afterFirst '?' path = none →
      extract_code_from_request s = .error "No query string in callback") ∧
    (∀ (s : String) (t path : List Char) (rest : List (List Char))
        (query : List Char),
      words s.data = t :: path :: rest →
      afterFirst '?' path = some query →
      (∀ p ∈ splitOnChar '&' query, (splitn2Eq p).1 ≠ "code".data ∧
        (splitn2Eq p).1 ≠ "error".data) →
      extract_code_from_request s =
        .error "No authorization code in callback") := by
  refine ⟨?_, ?_, ?_⟩
  · intro s h
    rcases hw : words s.data with _ | ⟨t, _ | ⟨path, rest⟩⟩
    · simp [extract_code_from_request, hw]
    · simp [extract_code_from_request, hw]
    · rw [hw] at h
      simp only [List.length_cons] at h
      exact absurd h (by omega)
  · intro s t path rest hw hq
    simp [extract_code_from_request, hw, hq]
  · intro s t path rest query hw hq hnone
    simp only [extract_code_from_request, hw, hq]
    exact scanPairs_no_code_no_error query _ hnone

/-- Witness for C6: a one-token request line, a path without a query
string, and a query with neither `code` nor `error`. -/
theorem extract_code_error_cases_witness :
    extract_code_from_request "GET" = .error "Invalid HTTP request" ∧
    extract_code_from_request "GET /auth/redirect HTTP/1.1" =
      .error "No query string in callback" ∧
    extract_code_from_request "GET /cb?foo=1&bar=2 HTTP/1.1" =
      .error "No authorization code in callback" :=
  ⟨extract_code_error_cases.1 "GET" (by decide),
   extract_code_error_cases.2.1 "GET /auth/redirect HTTP/1.1"
     "GET".data "/auth/redirect".data ["HTTP/1.1".data] (by decide) rfl,
   extract_code_error_cases.2.2 "GET /cb?foo=1&bar=2 HTTP/1.1"
     "GET".data "/cb?foo=1&bar=2".data ["HTTP/1.1".data] "foo=1&bar=2".data
     (by decide) rfl (by decide)⟩

/-- Counterexample to C8 as stated: configuring a static token on a
store holding an OAuth2 record leaves the record in place — both
credentials persist. -/
theorem config_command_token_counterexample :
    (config_command
        ⟨⟨none, none, none, some ⟨"cid", "A", "R", 1000⟩⟩,
         ⟨none, none, none, some ⟨"cid", "A", "R", 1000⟩⟩⟩
        none (some "newtok") none).mem.oauth2 =
      some ⟨"cid", "A", "R", 1000⟩ ∧
    (config_command
        ⟨⟨none, none, none, some ⟨"cid", "A", "R", 1000⟩⟩,
         ⟨none, none, none, some ⟨"cid", "A", "R", 1000⟩⟩⟩
        none (some "newtok") none).mem.token = some "newtok" ∧
    (config_command
        ⟨⟨none, none, none, some ⟨"cid", "A", "R", 1000⟩⟩,
         ⟨none, none, none, some ⟨"cid", "A", "R", 1000⟩⟩⟩
        none (some "newtok") none).disk.oauth2 =
      some ⟨"cid", "A", "R", 1000⟩ := by
  refine ⟨by decide, by decide, by decide⟩

/-- Claim C8 (amended): the config command never touches the OAuth2
record — re-configuring a static token stores the token but leaves the
OAuth2 record unchanged, so both persist. -/
theorem config_command_keeps_oauth2 (st : Store)
    (host token project : Option String) :
    (config_command st host token project).mem.oauth2 =
      st.mem.oauth2 ∧
    (∀ tok, token = some tok →
      (config_command st host token project).mem.token = some tok) := by
  cases host <;> cases token <;> cases project <;>
    simp [config_command, Store.save]

/-- Witness for C8 (amended) on a concrete store holding an OAuth2
record. -/
theorem config_command_keeps_oauth2_witness :
    (config_command
        ⟨⟨some "h", none, none, some ⟨"cid", "A", "R", 7⟩⟩,
         ⟨some "h", none, none, some ⟨"cid", "A", "R", 7⟩⟩⟩
        none (some "tok2") none).mem.oauth2 = some ⟨"cid", "A", "R", 7⟩ ∧
    (config_command
        ⟨⟨some "h", none, none, some ⟨"cid", "A", "R", 7⟩⟩,
         ⟨some "h", none, none, some ⟨"cid", "A", "R", 7⟩⟩⟩
        none (some "tok2") none).mem.token = some "tok2" :=
  ⟨(config_command_keeps_oauth2
      ⟨⟨some "h", none, none, some ⟨"cid", "A", "R", 7⟩⟩,
       ⟨some "h", none, none, some ⟨"cid", "A", "R", 7⟩⟩⟩
      none (some "tok2") none).1,
   (config_command_keeps_oauth2
      ⟨⟨some "h", none, none, some ⟨"cid", "A", "R", 7⟩⟩,
       ⟨some "h", none, none, some ⟨"cid", "A", "R", 7⟩⟩⟩
      none (some "tok2") none).2 "tok2" rfl⟩

/-- Claim C10: a successful login stores the exchanged record, clears
the static token, leaves the default project unchanged, changes the
host only when an override was supplied, and saves once (disk equals
memory afterwards). -/
theorem auth_login_success_frame (st : Store)
    (client_id host : Option String) (verifier request_line : String)
    (tr : Except String HttpResponse) (now : Int)
    (code : String) (rec : OAuth2Config)
    (hc : extract_code_from_request request_line = .ok code)
    (hx : (AuthFlow.new (host.getD st.mem.hostStr)
      (client_id.getD default_client_id) verifier).exchange_code
        code tr now = .ok rec) :
    (auth_login st client_id host verifier request_line tr now).1 =
      .ok () ∧
    (auth_login st client_id host verifier request_line tr
      now).2.mem.oauth2 = some rec ∧
    (auth_login st client_id host verifier request_line tr
      now).2.mem.token = none ∧
    (auth_login st client_id host verifier request_line tr
      now).2.mem.project = st.mem.project ∧
    (auth_login st client_id host verifier request_line tr
      now).2.mem.host = (if host.isSome then host else st.mem.host) ∧
    (auth_login st client_id host verifier request_line tr
      now).2.disk =
    (auth_login st client_id host verifier request_line tr
      now).2.mem := by
  cases host with
  | none =>
    rw [Option.getD_none] at hx
    simp [auth_login, hc, hx, Store.save]
  | some v =>
    rw [Option.getD_some] at hx
    simp [auth_login, hc, hx, Store.save]

/-- Witness for C10: a concrete successful login with a host override;
the project survives, the static token is cleared, the host moves to
the override, and disk equals memory. -/
theorem auth_login_success_frame_witness :
    (auth_login
        ⟨⟨some "https://h1", some "stok", some "proj", none⟩,
         ⟨some "https://h1", some "stok", some "proj", none⟩⟩
        none (some "https://h2") "v"
        "GET /auth/redirect?code=abc HTTP/1.1"
        (.ok ⟨true, "", some (Json.obj [("access_token", Json.str "A"),
            ("refresh_token", Json.str "R")])⟩) 0).2.mem.token = none ∧
    (auth_login
        ⟨⟨some "https://h1", some "stok", some "proj", none⟩,
         ⟨some "https://h1", some "stok", some "proj", none⟩⟩
        none (some "https://h2") "v"
        "GET /auth/redirect?code=abc HTTP/1.1"
        (.ok ⟨true, "", some (Json.obj [("access_token", Json.str "A"),
            ("refresh_token", Json.str "R")])⟩) 0).2.mem.project =
      some "proj" ∧
    (auth_login
        ⟨⟨some "https://h1", some "stok", some "proj", none⟩,
         ⟨some "https://h1", some "stok", some "proj", none⟩⟩
        none (some "https://h2") "v"
        "GET /auth/redirect?code=abc HTTP/1.1"
        (.ok ⟨true, "", some (Json.obj [("access_token", Json.str "A"),
            ("refresh_token", Json.str "R")])⟩) 0).2.mem.host =
      some "https://h2" ∧
    (∃ rec, (auth_login
        ⟨⟨some "https://h1", some "stok", some "proj", none⟩,
         ⟨some "https://h1", some "stok", some "proj", none⟩⟩
        none (some "https://h2") "v"
        "GET /auth/redirect?code=abc HTTP/1.1"
        (.ok ⟨true, "", some (Json.obj [("access_token", Json.str "A"),
            ("refresh_token", Json.str "R")])⟩) 0).2.mem.oauth2 =
      some rec) ∧
    (auth_login
        ⟨⟨some "https://h1", some "stok", some "proj", none⟩,
         ⟨some "https://h1", some "stok", some "proj", none⟩⟩
        none (some "https://h2") "v"
        "GET /auth/redirect?code=abc HTTP/1.1"
        (.ok ⟨true, "", some (Json.obj [("access_token", Json.str "A"),
            ("refresh_token", Json.str "R")])⟩) 0).2.disk =
    (auth_login
        ⟨⟨some "https://h1", some "stok", some "proj", none⟩,
         ⟨some "https://h1", some "stok", some "proj", none⟩⟩
        none (some "https://h2") "v"
        "GET /auth/redirect?code=abc HTTP/1.1"
        (.ok ⟨true, "", some (Json.obj [("access_token", Json.str "A"),
            ("refresh_token", Json.str "R")])⟩) 0).2.mem := by
  obtain ⟨_, h1, h2, h3, h4, h5⟩ :=
    auth_login_success_frame
      ⟨⟨some "https://h1", some "stok", some "proj", none⟩,
       ⟨some "https://h1", some "stok", some "proj", none⟩⟩
      none (some "https://h2") "v"
      "GET /auth/redirect?code=abc HTTP/1.1"
      (.ok ⟨true, "", some (Json.obj [("access_token", Json.str "A"),
          ("refresh_token", Json.str "R")])⟩) 0 "abc"
      ⟨default_client_id, "A", "R", 7200⟩ rfl rfl
  exact ⟨h2, h3, h4, ⟨⟨default_client_id, "A", "R", 7200⟩, h1⟩, h5⟩

end GitlabCli
